import Mathlib

/-!
Shallow embedding of the pymeepo agent library (message/conversation data
model, placeholder agent, pass-through adapter) and proofs about the claims
of its specification.

Conventions of the embedding:
* Python dictionaries become association lists `List (String × PyVal)` kept
  in insertion order, matching Python 3.7+ dict semantics.
* Nondeterministic construction-time data (`uuid.uuid4()` for ids,
  `datetime.now()` for timestamps) is supplied explicitly through a `Fresh`
  record, modelling the generated values as inputs.
* Python truthiness of `str | None` fields (`if self.name:` etc.) is
  modelled by `strTruthy`: `None` and the empty string are falsy.
* Fallible construction/validation returns `Except String`.
-/

/-- A generic Python value, used for dictionary payloads (`Any`). -/
inductive PyVal where
  | str (s : String)
  | int (n : Int)
  | bool (b : Bool)
  | pynone
  | list (xs : List PyVal)
  | dict (kvs : List (String × PyVal))

/-- Truthiness of a Python `str | None` value: `None` and `""` are falsy. -/
def strTruthy : Option String → Bool
  | none => false
  | some s => s ≠ ""

/-- Python `x or default` for `x : str | None`: first truthy operand. -/
def pyOrStr (x : Option String) (default : String) : String :=
  match x with
  | some s => if s ≠ "" then s else default
  | none => default

/-- `Role` enumeration from `pymeepo/core/types.py`. -/
inductive Role where
  | system
  | user
  | assistant
  | tool
  | function
deriving DecidableEq

/-- The string `.value` of each `Role` member. -/
def Role.value : Role → String
  | .system => "system"
  | .user => "user"
  | .assistant => "assistant"
  | .tool => "tool"
  | .function => "function"

/-- Python `Role(v)` enum lookup on a string: the member whose value is `v`,
or no member at all (a `ValueError` in Python). -/
def Role.fromStr (s : String) : Option Role :=
  if s = "system" then some .system
  else if s = "user" then some .user
  else if s = "assistant" then some .assistant
  else if s = "tool" then some .tool
  else if s = "function" then some .function
  else none

/-- `Message.validate_role` from `pymeepo/core/message.py`, restricted to the
string branch (`isinstance(v, str)`): `Role(v)` on success, a `ValueError`
with message `Invalid role: v` otherwise. -/
def validate_role (v : String) : Except String Role :=
  match Role.fromStr v with
  | some r => Except.ok r
  | none => Except.error ("Invalid role: " ++ v)

/-- A content item: `str | dict[str, Any]` (`pymeepo/core/types.py`). -/
inductive ContentItem where
  | str (s : String)
  | dict (kvs : List (String × PyVal))

/-- `Content`: `str | list[ContentItem]` (`pymeepo/core/types.py`). -/
inductive Content where
  | str (s : String)
  | items (l : List ContentItem)

/-- Injection of a `ContentItem` into generic Python values. -/
def ContentItem.toVal : ContentItem → PyVal
  | .str s => PyVal.str s
  | .dict kvs => PyVal.dict kvs

/-- Injection of a `Content` into generic Python values. -/
def Content.toVal : Content → PyVal
  | .str s => PyVal.str s
  | .items l => PyVal.list (l.map ContentItem.toVal)

/-- `FunctionCall` from `pymeepo/core/types.py`: name, argument mapping,
optional result (default `None`). -/
structure FunctionCall where
  name : String
  arguments : List (String × PyVal)
  result : PyVal := PyVal.pynone

/-- Pydantic `model_dump()` of a `FunctionCall`: all three fields. -/
def FunctionCall.model_dump (fc : FunctionCall) : List (String × PyVal) :=
  [("name", PyVal.str fc.name), ("arguments", PyVal.dict fc.arguments),
   ("result", fc.result)]

/-- Construction-time generated data of one `Message`: the `uuid.uuid4()`
message id and the `datetime.now()` timestamp, supplied as inputs. -/
structure Fresh where
  message_id : String
  created_at : Nat

/-- `Message` from `pymeepo/core/message.py`. -/
structure Message where
  message_id : String
  role : Role
  content : Content
  name : Option String
  created_at : Nat
  function_call : Option FunctionCall

/-- `Message.to_dict`: `{role, content}` always, `name` added when `self.name`
is truthy, `function_call` (as `model_dump()`) when `self.function_call` is
truthy (a pydantic model is always truthy, so: present). -/
def Message.to_dict (m : Message) : List (String × PyVal) :=
  let base := [("role", PyVal.str m.role.value), ("content", m.content.toVal)]
  let withName := match m.name with
    | some s => if s ≠ "" then base ++ [("name", PyVal.str s)] else base
    | none => base
  match m.function_call with
  | some fc => withName ++ [("function_call", PyVal.dict fc.model_dump)]
  | none => withName

/-- `Message.system` factory. -/
def Message.system (f : Fresh) (content : String)
    (name : Option String := none) : Message :=
  ⟨f.message_id, Role.system, Content.str content, name, f.created_at, none⟩

/-- `Message.user` factory (content may be a string or a list). -/
def Message.user (f : Fresh) (content : Content)
    (name : Option String := none) : Message :=
  ⟨f.message_id, Role.user, content, name, f.created_at, none⟩

/-- `Message.assistant` factory. -/
def Message.assistant (f : Fresh) (content : Content)
    (name : Option String := none)
    (function_call : Option FunctionCall := none) : Message :=
  ⟨f.message_id, Role.assistant, content, name, f.created_at, function_call⟩

/-- `Message.tool` factory. -/
def Message.tool (f : Fresh) (content : String)
    (name : Option String := none) : Message :=
  ⟨f.message_id, Role.tool, Content.str content, name, f.created_at, none⟩

/-- `Message.function` factory (name is required). -/
def Message.function (f : Fresh) (content : String) (name : String) : Message :=
  ⟨f.message_id, Role.function, Content.str content, some name, f.created_at,
   none⟩

/-- `Conversation` from `pymeepo/core/message.py`: id, ordered messages,
metadata mapping, creation timestamp. -/
structure Conversation where
  conversation_id : String
  messages : List Message
  metadata : List (String × PyVal)
  created_at : Nat

/-- A fresh `Conversation()` with generated id/timestamp and default-empty
messages and metadata. -/
def Conversation.new (conversation_id : String) (created_at : Nat) :
    Conversation :=
  ⟨conversation_id, [], [], created_at⟩

/-- `Conversation.add_message`: append to `messages`. -/
def Conversation.add_message (c : Conversation) (m : Message) : Conversation :=
  { c with messages := c.messages ++ [m] }

/-- `Conversation.add_system_message`. -/
def Conversation.add_system_message (c : Conversation) (f : Fresh)
    (content : String) (name : Option String := none) : Conversation :=
  c.add_message (Message.system f content name)

/-- `Conversation.add_user_message`. -/
def Conversation.add_user_message (c : Conversation) (f : Fresh)
    (content : Content) (name : Option String := none) : Conversation :=
  c.add_message (Message.user f content name)

/-- `Conversation.add_assistant_message`. -/
def Conversation.add_assistant_message (c : Conversation) (f : Fresh)
    (content : Content) (name : Option String := none)
    (function_call : Option FunctionCall := none) : Conversation :=
  c.add_message (Message.assistant f content name function_call)

/-- `Conversation.add_tool_message`. -/
def Conversation.add_tool_message (c : Conversation) (f : Fresh)
    (content : String) (name : Option String := none) : Conversation :=
  c.add_message (Message.tool f content name)

/-- `Conversation.add_function_message`. -/
def Conversation.add_function_message (c : Conversation) (f : Fresh)
    (content : String) (name : String) : Conversation :=
  c.add_message (Message.function f content name)

/-- `Conversation.get_last_message`: `None` when `messages` is empty, else
`messages[-1]`. -/
def Conversation.get_last_message (c : Conversation) : Option Message :=
  if c.messages.isEmpty then none else c.messages.getLast?

/-- `Conversation.clear`: replace `messages` by the empty list. -/
def Conversation.clear (c : Conversation) : Conversation :=
  { c with messages := [] }

/-- One call of the `add_*_message` family, with its arguments. -/
inductive AddOp where
  | message (m : Message)
  | system (content : String) (name : Option String)
  | user (content : Content) (name : Option String)
  | assistant (content : Content) (name : Option String)
      (function_call : Option FunctionCall)
  | tool (content : String) (name : Option String)
  | function (content : String) (name : String)

/-- The `Message` an `add_*_message` call constructs and appends, given the
construction-time generated data `f` (unused for `add_message`, which takes
an already-built message). -/
def AddOp.toMessage (f : Fresh) : AddOp → Message
  | .message m => m
  | .system c n => Message.system f c n
  | .user c n => Message.user f c n
  | .assistant c n fc => Message.assistant f c n fc
  | .tool c n => Message.tool f c n
  | .function c n => Message.function f c n

/-- Run one `add_*_message` call against a conversation. -/
def Conversation.applyOp (c : Conversation) (p : Fresh × AddOp) :
    Conversation :=
  match p.2 with
  | .message m => c.add_message m
  | .system cc n => c.add_system_message p.1 cc n
  | .user cc n => c.add_user_message p.1 cc n
  | .assistant cc n fc => c.add_assistant_message p.1 cc n fc
  | .tool cc n => c.add_tool_message p.1 cc n
  | .function cc n => c.add_function_message p.1 cc n

/-- Run a sequence of `add_*_message` calls in order. -/
def Conversation.applyOps (c : Conversation) (ops : List (Fresh × AddOp)) :
    Conversation :=
  ops.foldl Conversation.applyOp c

/-- `AgentType` enumeration from `pymeepo/core/types.py`. -/
inductive AgentType where
  | assistant
  | code_executor
  | user_proxy
  | society_of_mind
  | custom
deriving DecidableEq

/-- A cancellation token (`autogen_core.CancellationToken`), opaque here:
the placeholder implementations never consult it. -/
abbrev CancellationToken := Nat

/-- An AutoGen `ChatMessage` as seen by this layer: a `TextMessage` with its
`content` and `source`, or some other chat-message kind, carried with its
content, the string `str(content)` produces for it, and its source. -/
inductive ChatMessage where
  | text (content : String) (source : String)
  | other (content : Content) (strRepr : String) (source : String)

/-- An AutoGen `Response`, holding the final chat message. -/
structure Response where
  chat_message : ChatMessage

/-- The `content` of a chat message (for `TextMessage`, its text). -/
def ChatMessage.contentStr : ChatMessage → String
  | .text c _ => c
  | .other _ r _ => r

/-- One item emitted by a streaming call: a
`ModelClientStreamingChunkEvent` or the terminal `Response`. -/
inductive StreamEvent where
  | chunk (content : String) (source : String)
  | response (r : Response)

/-- Whether a stream item is a partial-content chunk event. -/
def StreamEvent.isChunk : StreamEvent → Bool
  | .chunk _ _ => true
  | .response _ => false

/-- The contents of the chunk events of a stream, in emission order. -/
def chunkContents : List StreamEvent → List String
  | [] => []
  | .chunk c _ :: rest => c :: chunkContents rest
  | .response _ :: rest => chunkContents rest

/-- `AsyncMeepoAgent` state (`pymeepo/core/agent.py`). -/
structure AsyncMeepoAgent where
  name : String
  description : String
  agent_type : AgentType
  _system_message : Option String
  _llm_config : List (String × PyVal)
  _conversation : Conversation

/-- `AsyncMeepoAgent.__init__`: build the conversation, seeding the system
message when it is truthy. `fc` supplies the generated conversation
id/timestamp, `fs` the generated data of the seeded system message. -/
def AsyncMeepoAgent.init (fc : String × Nat) (fs : Fresh) (name : String)
    (description : String := "")
    (agent_type : AgentType := AgentType.assistant)
    (system_message : Option String := none)
    (llm_config : List (String × PyVal) := []) : AsyncMeepoAgent :=
  let conv := Conversation.new fc.1 fc.2
  let conv := match system_message with
    | some s => if s ≠ "" then conv.add_system_message fs s none else conv
    | none => conv
  ⟨name, description, agent_type, system_message, llm_config, conv⟩

/-- `AsyncMeepoAgent.create_assistant`: assistant type, system message
defaulting (by Python `or`) to the generic helpful-assistant prompt, llm
config seeded with the model name. -/
def AsyncMeepoAgent.create_assistant (fc : String × Nat) (fs : Fresh)
    (name : String) (llm : String := "gpt-4")
    (system_message : Option String := none)
    (description : String := "A helpful AI assistant") : AsyncMeepoAgent :=
  AsyncMeepoAgent.init fc fs name description AgentType.assistant
    (some (pyOrStr system_message "You are a helpful AI assistant."))
    [("model", PyVal.str llm)]

/-- `AsyncMeepoAgent._convert_autogen_messages`: every incoming message
becomes a user-role `Message`; a `TextMessage` keeps its content, any other
kind contributes `str(content)`. `supply i` is the generated data of the
`i`-th converted message. -/
def AsyncMeepoAgent._convert_autogen_messages (supply : Nat → Fresh)
    (messages : List ChatMessage) : List Message :=
  messages.enum.map fun p =>
    match p.2 with
    | .text c _ => Message.user (supply p.1) (Content.str c) none
    | .other _ r _ => Message.user (supply p.1) (Content.str r) none

/-- `AsyncMeepoAgent._generate_response`: the fixed placeholder text,
ignoring the conversation and the token. -/
def AsyncMeepoAgent._generate_response (_conversation : Conversation)
    (_cancellation_token : CancellationToken) : String :=
  "This is a placeholder response from AsyncMeepoAgent."

/-- The placeholder chunk list of `_generate_response_stream`. -/
def placeholderChunks : List String :=
  ["This ", "is ", "a ", "placeholder ", "response ", "from ",
   "AsyncMeepoAgent."]

/-- `AsyncMeepoAgent._generate_response_stream`: yields the placeholder
chunks in order, ignoring the conversation and the token. -/
def AsyncMeepoAgent._generate_response_stream (_conversation : Conversation)
    (_cancellation_token : CancellationToken) : List String :=
  placeholderChunks

/-- `AsyncMeepoAgent.on_messages`: convert and append the incoming messages,
generate the response text, and wrap it as a `TextMessage` from this agent
inside a `Response`. -/
def AsyncMeepoAgent.on_messages (a : AsyncMeepoAgent) (supply : Nat → Fresh)
    (messages : List ChatMessage) (cancellation_token : CancellationToken) :
    Response × AsyncMeepoAgent :=
  let pymeepo_messages := AsyncMeepoAgent._convert_autogen_messages supply
    messages
  let a := { a with
    _conversation := pymeepo_messages.foldl Conversation.add_message
      a._conversation }
  let response_content := AsyncMeepoAgent._generate_response a._conversation
    cancellation_token
  (⟨ChatMessage.text response_content a.name⟩, a)

/-- `AsyncMeepoAgent.on_messages_stream`: convert and append the incoming
messages, emit one chunk event per generated chunk (accumulating the
content), then emit the terminal `Response` holding the accumulated
content. -/
def AsyncMeepoAgent.on_messages_stream (a : AsyncMeepoAgent)
    (supply : Nat → Fresh) (messages : List ChatMessage)
    (cancellation_token : CancellationToken) :
    List StreamEvent × AsyncMeepoAgent :=
  let pymeepo_messages := AsyncMeepoAgent._convert_autogen_messages supply
    messages
  let a := { a with
    _conversation := pymeepo_messages.foldl Conversation.add_message
      a._conversation }
  let chunks := AsyncMeepoAgent._generate_response_stream a._conversation
    cancellation_token
  let response_content := String.join chunks
  (chunks.map (fun c => StreamEvent.chunk c a.name) ++
    [StreamEvent.response ⟨ChatMessage.text response_content a.name⟩], a)

/-- `AsyncMeepoAgent.on_reset`: clear the conversation and re-seed the system
message when it is truthy; `f` is the generated data of the re-seeded
system message. -/
def AsyncMeepoAgent.on_reset (a : AsyncMeepoAgent) (f : Fresh)
    (_cancellation_token : CancellationToken) : AsyncMeepoAgent :=
  let conv := a._conversation.clear
  let conv := match a._system_message with
    | some s => if s ≠ "" then conv.add_system_message f s none else conv
    | none => conv
  { a with _conversation := conv }

/-- `MeepoAgent`, the synchronous wrapper (`pymeepo/core/agent.py`). -/
structure MeepoAgent where
  _async_agent : AsyncMeepoAgent

/-- `MeepoAgent._prepare_conversation`: a brand-new conversation holding the
wrapped agent's system message (when truthy) followed by the input, a plain
string becoming a user message. `fc` is the generated conversation
id/timestamp, `fs`/`fu` the generated data of the system/user messages. -/
def MeepoAgent._prepare_conversation (ag : MeepoAgent) (fc : String × Nat)
    (fs : Fresh) (fu : Fresh) (message : String ⊕ Message) : Conversation :=
  let conversation := Conversation.new fc.1 fc.2
  let conversation := match ag._async_agent._system_message with
    | some s => if s ≠ "" then conversation.add_system_message fs s none
      else conversation
    | none => conversation
  match message with
  | Sum.inl s => conversation.add_user_message fu (Content.str s) none
  | Sum.inr m => conversation.add_message m

/-- `MeepoAgent.generate_response`: prepare a temporary conversation for this
call and run the wrapped agent's `_generate_response` on it; the wrapped
agent is not modified. -/
def MeepoAgent.generate_response (ag : MeepoAgent) (fc : String × Nat)
    (fs : Fresh) (fu : Fresh) (message : String ⊕ Message)
    (cancel_token : CancellationToken) : String × MeepoAgent :=
  let conversation := ag._prepare_conversation fc fs fu message
  (AsyncMeepoAgent._generate_response conversation cancel_token, ag)

/-- One invocation of a contract operation on the wrapped external agent,
with the arguments it received. The list of these is the adapter's call
log. -/
inductive ACall where
  | on_messages (messages : List ChatMessage)
      (cancellation_token : CancellationToken)
  | on_messages_stream (messages : List ChatMessage)
      (cancellation_token : CancellationToken)
  | on_reset (cancellation_token : CancellationToken)
  | save_state
  | load_state (state : List (String × PyVal))
  | close

/-- An external AutoGen `BaseChatAgent` instance, abstractly: its name and
description, and, for each value-returning contract operation, an arbitrary
function of the call history so far and the arguments. Operations returning
`None` (`on_reset`, `load_state`, `close`) need no result function; their
effect is captured by the call history itself. -/
structure ExternalChatAgent where
  name : String
  description : String
  on_messages : List ACall → List ChatMessage → CancellationToken → Response
  on_messages_stream : List ACall → List ChatMessage → CancellationToken →
    List StreamEvent
  save_state : List ACall → List (String × PyVal)

/-- `AutogenAdapter` (`pymeepo/adapters/autogen/adapter.py`): snapshots the
wrapped agent's name/description at construction and stores the agent. -/
structure AutogenAdapter where
  name : String
  description : String
  _internal_agent : ExternalChatAgent

/-- `AutogenAdapter.__init__`. -/
def AutogenAdapter.init (agent : ExternalChatAgent) : AutogenAdapter :=
  ⟨agent.name, agent.description, agent⟩

/-- `AutogenAdapter.on_messages`: return the wrapped agent's answer to the
same arguments; the call log records the single forwarded call. -/
def AutogenAdapter.on_messages (ad : AutogenAdapter) (hist : List ACall)
    (messages : List ChatMessage)
    (cancellation_token : CancellationToken) : Response × List ACall :=
  (ad._internal_agent.on_messages hist messages cancellation_token,
   hist ++ [ACall.on_messages messages cancellation_token])

/-- Re-emission of a stream item by item (`async for chunk ...: yield
chunk`). -/
def reyield : List StreamEvent → List StreamEvent
  | [] => []
  | e :: rest => e :: reyield rest

/-- `AutogenAdapter.on_messages_stream`: re-yield each item of the wrapped
agent's stream; the call log records the single forwarded call. -/
def AutogenAdapter.on_messages_stream (ad : AutogenAdapter)
    (hist : List ACall) (messages : List ChatMessage)
    (cancellation_token : CancellationToken) :
    List StreamEvent × List ACall :=
  (reyield (ad._internal_agent.on_messages_stream hist messages
     cancellation_token),
   hist ++ [ACall.on_messages_stream messages cancellation_token])

/-- `AutogenAdapter.on_reset`: forward to the wrapped agent (which returns
`None`); the call log records the single forwarded call. -/
def AutogenAdapter.on_reset (_ad : AutogenAdapter) (hist : List ACall)
    (cancellation_token : CancellationToken) : List ACall :=
  hist ++ [ACall.on_reset cancellation_token]

/-- `AutogenAdapter.save_state`: return the wrapped agent's state mapping
(the `cast` is identity at runtime); the call log records the single
forwarded call. -/
def AutogenAdapter.save_state (ad : AutogenAdapter) (hist : List ACall) :
    List (String × PyVal) × List ACall :=
  (ad._internal_agent.save_state hist, hist ++ [ACall.save_state])

/-- `AutogenAdapter.load_state`: forward the state mapping unchanged to the
wrapped agent; the call log records the single forwarded call. -/
def AutogenAdapter.load_state (_ad : AutogenAdapter) (hist : List ACall)
    (state : List (String × PyVal)) : List ACall :=
  hist ++ [ACall.load_state state]

/-- `AutogenAdapter.close`: forward to the wrapped agent; the call log
records the single forwarded call. -/
def AutogenAdapter.close (_ad : AutogenAdapter) (hist : List ACall) :
    List ACall :=
  hist ++ [ACall.close]

/-- An arbitrary Python object handed to `adapt`: either an instance of the
AutoGen `BaseChatAgent` shape, or anything else, carried with the name
`type(agent).__name__` produces for it. -/
inductive PyAgentObject where
  | chatAgent (agent : ExternalChatAgent)
  | other (typeName : String)

/-- `adapt` (`pymeepo/adapters/__init__.py`): `BaseChatAgent` instances get
an `AutogenAdapter`; anything else raises
`ValueError(f"Unsupported agent type: ...")`. -/
def adapt : PyAgentObject → Except String AutogenAdapter
  | .chatAgent agent => Except.ok (AutogenAdapter.init agent)
  | .other typeName => Except.error
      ("Unsupported agent type: " ++ typeName ++
       ". Currently supported frameworks: AutoGen")

/-- A wrapped internal object as seen by attribute delegation: its attribute
table (`hasattr`/`getattr`). -/
structure InternalObj where
  attrs : List (String × PyVal)

/-- Outcome of a Python attribute lookup: the value, or an
`AttributeError` with its message. -/
inductive GetattrResult where
  | found (v : PyVal)
  | attributeError (msg : String)

/-- `BaseMeepoAgent.__getattr__` (`pymeepo/core/base_agent.py`): with no
internal agent, `AttributeError("<cls> has no internal agent")`; else the
internal agent's attribute when present, else
`AttributeError("<cls> has no attribute '<name>'")`. -/
def BaseMeepoAgent.getattrDelegate (clsName : String)
    (internal : Option InternalObj) (name : String) : GetattrResult :=
  match internal with
  | none => GetattrResult.attributeError (clsName ++ " has no internal agent")
  | some obj =>
    match obj.attrs.lookup name with
    | some v => GetattrResult.found v
    | none => GetattrResult.attributeError
        (clsName ++ " has no attribute \x27" ++ name ++ "\x27")

/-- Whether `pat` occurs as a contiguous substring of `s`. -/
def strContains (s pat : String) : Bool :=
  decide (pat.toList <:+: s.toList)

/-- The C1 claim, at one message: whenever the `name` field is set, the
serialized dictionary carries a `name` key with exactly that value. -/
def nameKeyFaithful (m : Message) : Prop :=
  m.to_dict.lookup "name" = m.name.map PyVal.str

/-- The C9 claim, at one lookup: every `AttributeError` raised by the
delegated attribute access names both the missing member and the wrapping
class in its message. -/
def getattrErrorNamesMember (clsName : String) (internal : Option InternalObj)
    (name : String) : Prop :=
  ∀ msg, BaseMeepoAgent.getattrDelegate clsName internal name
      = GetattrResult.attributeError msg →
    strContains msg name = true ∧ strContains msg clsName = true

/-- A concrete synchronous wrapper agent used to instantiate theorems. -/
def sampleSyncAgent : MeepoAgent :=
  ⟨⟨"bot", "", AgentType.assistant, some "sys prompt", [],
    Conversation.new "c0" 0⟩⟩

/- ---------------------------------------------------------------- -/
/- Helper lemmas -/
/- ---------------------------------------------------------------- -/

theorem string_toList_append (a b : String) :
    (a ++ b).toList = a.toList ++ b.toList :=
  String.data_append a b

theorem strContains_of_infix {s pat : String}
    (h : pat.toList <:+: s.toList) : strContains s pat = true :=
  decide_eq_true h

theorem strContains_middle (a b c : String) :
    strContains (a ++ b ++ c) b = true := by
  refine strContains_of_infix ⟨a.toList, c.toList, ?_⟩
  rw [string_toList_append, string_toList_append]

theorem strContains_prefixed (a b : String) :
    strContains (a ++ b) a = true := by
  refine strContains_of_infix ⟨[], b.toList, ?_⟩
  rw [string_toList_append]
  rfl

theorem reyield_eq (l : List StreamEvent) : reyield l = l := by
  induction l with
  | nil => rfl
  | cons e rest ih => simp [reyield, ih]

theorem chunkContents_append (xs ys : List StreamEvent) :
    chunkContents (xs ++ ys) = chunkContents xs ++ chunkContents ys := by
  induction xs with
  | nil => rfl
  | cons e rest ih => cases e <;> simp [chunkContents, ih]

theorem chunkContents_map_chunk (l : List String) (src : String) :
    chunkContents (l.map fun c => StreamEvent.chunk c src) = l := by
  induction l with
  | nil => rfl
  | cons c rest ih => simp [chunkContents, ih]

theorem Conversation.get_last_message_eq (c : Conversation) :
    c.get_last_message = c.messages.getLast? := by
  unfold Conversation.get_last_message
  cases c.messages <;> simp

theorem Conversation.applyOp_messages (c : Conversation) (p : Fresh × AddOp) :
    (c.applyOp p).messages = c.messages ++ [p.2.toMessage p.1] := by
  obtain ⟨f, op⟩ := p
  cases op <;> rfl

theorem Conversation.applyOps_messages (c : Conversation)
    (ops : List (Fresh × AddOp)) :
    (c.applyOps ops).messages
      = c.messages ++ ops.map fun p => p.2.toMessage p.1 := by
  induction ops generalizing c with
  | nil => simp [Conversation.applyOps]
  | cons p rest ih =>
    show (Conversation.applyOps (c.applyOp p) rest).messages = _
    rw [ih, Conversation.applyOp_messages]
    simp

/- ---------------------------------------------------------------- -/
/- Claim theorems -/
/- ---------------------------------------------------------------- -/

/-- Claim C2: each of the five supported role strings validates to the
corresponding `Role` member, and every other string yields a validation
error (`Invalid role: ...`) rather than a silent default. -/
theorem C2_role_validation :
    (∀ r : Role, validate_role r.value = Except.ok r) ∧
    (∀ s : String,
      s ∉ ["system", "user", "assistant", "tool", "function"] →
      validate_role s = Except.error ("Invalid role: " ++ s)) := by
  constructor
  · intro r; cases r <;> rfl
  · intro s hs
    have h1 : s ≠ "system" := fun e => hs (by simp [e])
    have h2 : s ≠ "user" := fun e => hs (by simp [e])
    have h3 : s ≠ "assistant" := fun e => hs (by simp [e])
    have h4 : s ≠ "tool" := fun e => hs (by simp [e])
    have h5 : s ≠ "function" := fun e => hs (by simp [e])
    simp [validate_role, Role.fromStr, h1, h2, h3, h4, h5]

/-- Witness for C2 at the concrete unsupported string `"boss"`. -/
theorem C2_role_validation_witness :
    "boss" ∉ ["system", "user", "assistant", "tool", "function"] ∧
    validate_role "boss" = Except.error ("Invalid role: " ++ "boss") :=
  ⟨by decide, C2_role_validation.2 "boss" (by decide)⟩

/-- Claim C3: running any sequence of `add_*_message` calls against a fresh
conversation leaves exactly the corresponding messages, in call order, and
`get_last_message` returns the most recently added message (`none` on an
empty conversation). -/
theorem C3_message_sequence (cid : String) (created : Nat)
    (ops : List (Fresh × AddOp)) :
    ((Conversation.new cid created).applyOps ops).messages
      = (ops.map fun p => p.2.toMessage p.1) ∧
    ((Conversation.new cid created).applyOps ops).get_last_message
      = (ops.map fun p => p.2.toMessage p.1).getLast? ∧
    (Conversation.new cid created).get_last_message = none := by
  refine ⟨?_, ?_, rfl⟩
  · rw [Conversation.applyOps_messages]; rfl
  · rw [Conversation.get_last_message_eq, Conversation.applyOps_messages]
    rfl

/-- Claim C8: `clear()` empties the message list and leaves the
conversation's id, metadata and creation time unchanged. -/
theorem C8_clear_frame (c : Conversation) (h : 0 < c.messages.length) :
    c.clear.messages = [] ∧
    c.clear.conversation_id = c.conversation_id ∧
    c.clear.metadata = c.metadata ∧
    c.clear.created_at = c.created_at :=
  ⟨rfl, rfl, rfl, rfl⟩

/-- Witness for C8 at a concrete one-message conversation. -/
theorem C8_clear_frame_witness :
    0 < (Conversation.mk "c0"
      [⟨"m0", Role.user, Content.str "hi", none, 0, none⟩]
      [("k", PyVal.int 1)] 5).messages.length ∧
    (Conversation.mk "c0"
      [⟨"m0", Role.user, Content.str "hi", none, 0, none⟩]
      [("k", PyVal.int 1)] 5).clear.messages = [] :=
  ⟨by decide,
   (C8_clear_frame (Conversation.mk "c0"
      [⟨"m0", Role.user, Content.str "hi", none, 0, none⟩]
      [("k", PyVal.int 1)] 5) (by decide)).1⟩

/-- Counterexample to C1 as stated: a message whose `name` field is set to
the empty string serializes with no `name` key at all, because `to_dict`
tests Python truthiness (`if self.name:`), not set-ness. -/
theorem C1_counterexample :
    ¬ nameKeyFaithful
      ⟨"id0", Role.system, Content.str "hello", some "", 0, none⟩ := by
  intro h
  have h' : (none : Option PyVal) = some (PyVal.str "") := h
  exact Option.noConfusion h'

/-- Claim C1 (amended): `to_dict` always carries `role` (the enumeration's
string value) and `content`; `name` appears, with the given value, exactly
when the name is set to a non-empty string (an empty-string name is treated
as unset); `function_call` appears, as its `{name, arguments, result}`
dump, exactly when set; no other keys occur; and the system-message
round-trip gives `{"role": "system", "content": "hello"}`. -/
theorem C1_to_dict_shape (m : Message) (f : Fresh) :
    m.to_dict.lookup "role" = some (PyVal.str m.role.value) ∧
    m.to_dict.lookup "content" = some m.content.toVal ∧
    (m.to_dict.map Prod.fst
      = ["role", "content"]
        ++ (if strTruthy m.name then ["name"] else [])
        ++ (if m.function_call.isSome then ["function_call"] else [])) ∧
    (∀ s, m.name = some s → s ≠ "" →
      m.to_dict.lookup "name" = some (PyVal.str s)) ∧
    (strTruthy m.name = false → m.to_dict.lookup "name" = none) ∧
    (∀ fcall, m.function_call = some fcall →
      m.to_dict.lookup "function_call" = some (PyVal.dict fcall.model_dump)) ∧
    (m.function_call = none → m.to_dict.lookup "function_call" = none) ∧
    (Message.system f "hello" none).to_dict
      = [("role", PyVal.str "system"), ("content", PyVal.str "hello")] := by
  obtain ⟨mid, role, content, mname, created, mfc⟩ := m
  refine ⟨?_, ?_, ?_, ?_, ?_, ?_, ?_, rfl⟩
  case _ =>
    rcases mname with _ | s <;> rcases mfc with _ | fc <;>
      first
      | rfl
      | (rcases eq_or_ne s "" with h | h <;>
          simp [Message.to_dict, h, List.lookup])
  case _ =>
    rcases mname with _ | s <;> rcases mfc with _ | fc <;>
      first
      | rfl
      | (rcases eq_or_ne s "" with h | h <;>
          simp [Message.to_dict, h, List.lookup])
  case _ =>
    rcases mname with _ | s <;> rcases mfc with _ | fc <;>
      first
      | rfl
      | (rcases eq_or_ne s "" with h | h <;>
          simp [Message.to_dict, h, strTruthy, List.lookup])
  case _ =>
    rintro s rfl hne
    rcases mfc with _ | fc <;> simp [Message.to_dict, hne, List.lookup]
  case _ =>
    intro htr
    rcases mname with _ | s <;> rcases mfc with _ | fc <;>
      first
      | rfl
      | (simp only [strTruthy, ne_eq, decide_not] at htr
         rcases eq_or_ne s "" with h | h <;>
           simp_all [Message.to_dict, List.lookup])
  case _ =>
    rintro fcall rfl
    rcases mname with _ | s
    · rfl
    · rcases eq_or_ne s "" with h | h <;>
        simp [Message.to_dict, h, List.lookup]
  case _ =>
    rintro rfl
    rcases mname with _ | s
    · rfl
    · rcases eq_or_ne s "" with h | h <;>
        simp [Message.to_dict, h, List.lookup]

/-- Witness for C1 at a concrete message carrying a non-empty name and a
function call. -/
theorem C1_to_dict_shape_witness :
    (Message.mk "id1" Role.assistant (Content.str "ok") (some "Ann") 3
      (some ⟨"add", [("x", PyVal.int 2)], PyVal.pynone⟩)).to_dict.lookup "name"
      = some (PyVal.str "Ann") ∧
    (Message.mk "id1" Role.assistant (Content.str "ok") (some "Ann") 3
      (some ⟨"add", [("x", PyVal.int 2)], PyVal.pynone⟩)).to_dict.lookup
        "function_call"
      = some (PyVal.dict (FunctionCall.mk "add" [("x", PyVal.int 2)]
          PyVal.pynone).model_dump) :=
  ⟨(C1_to_dict_shape _ ⟨"f", 0⟩).2.2.2.1 "Ann" rfl (by decide),
   (C1_to_dict_shape _ ⟨"f", 0⟩).2.2.2.2.2.1 _ rfl⟩

/-- Claim C4: an assistant built by the factory with no explicit system
message has, after `on_reset`, exactly one system message carrying the
generic default assistant prompt; after one `on_messages` call with the
user text `"hi"` the conversation is `[system, user "hi"]` in order and the
response is the fixed placeholder text spoken by the agent. -/
theorem C4_assistant_scenario (fc : String × Nat) (fs f1 f2 : Fresh)
    (src : String) (tok1 tok2 : CancellationToken) :
    ((AsyncMeepoAgent.create_assistant fc fs "bot").on_reset f1
        tok1)._conversation.messages
      = [Message.system f1 "You are a helpful AI assistant." none] ∧
    (((AsyncMeepoAgent.create_assistant fc fs "bot").on_reset f1
        tok1).on_messages (fun _ => f2) [ChatMessage.text "hi" src]
        tok2).2._conversation.messages
      = [Message.system f1 "You are a helpful AI assistant." none,
         Message.user f2 (Content.str "hi") none] ∧
    (((AsyncMeepoAgent.create_assistant fc fs "bot").on_reset f1
        tok1).on_messages (fun _ => f2) [ChatMessage.text "hi" src] tok2).1
      = ⟨ChatMessage.text
          "This is a placeholder response from AsyncMeepoAgent." "bot"⟩ :=
  ⟨rfl, rfl, rfl⟩

/-- Claim C5: for every agent state and every input message sequence, the
stream emitted by `on_messages_stream` ends in exactly one terminal
`Response`, everything before it is a partial-content chunk event, and the
concatenation of the chunk contents in emission order equals the terminal
response's content. -/
theorem C5_stream_contract (a : AsyncMeepoAgent) (supply : Nat → Fresh)
    (messages : List ChatMessage) (tok : CancellationToken) :
    ∃ r : Response,
      (a.on_messages_stream supply messages tok).1.getLast?
        = some (StreamEvent.response r) ∧
      (∀ e ∈ (a.on_messages_stream supply messages tok).1.dropLast,
        e.isChunk = true) ∧
      String.join (chunkContents
        (a.on_messages_stream supply messages tok).1.dropLast)
        = r.chat_message.contentStr := by
  have hev : (a.on_messages_stream supply messages tok).1
      = placeholderChunks.map (fun c => StreamEvent.chunk c a.name)
        ++ [StreamEvent.response
            ⟨ChatMessage.text (String.join placeholderChunks) a.name⟩] := rfl
  refine ⟨⟨ChatMessage.text (String.join placeholderChunks) a.name⟩,
    ?_, ?_, ?_⟩
  · rw [hev, List.getLast?_concat]
  · rw [hev, List.dropLast_concat]
    rintro e he
    obtain ⟨c, -, rfl⟩ := List.mem_map.1 he
    rfl
  · rw [hev, List.dropLast_concat, chunkContents_map_chunk]
    rfl

/-- Claim C6: `adapt` on any object matching no registered shape fails with
the unsupported-type `ValueError`, whose message contains the offending
type's name and the list of supported frameworks; it never returns an
adapter. -/
theorem C6_adapt_unsupported (typeName : String) :
    adapt (PyAgentObject.other typeName)
      = Except.error ("Unsupported agent type: " ++ typeName ++
          ". Currently supported frameworks: AutoGen") ∧
    strContains ("Unsupported agent type: " ++ typeName ++
      ". Currently supported frameworks: AutoGen") typeName = true ∧
    strContains ("Unsupported agent type: " ++ typeName ++
      ". Currently supported frameworks: AutoGen") "AutoGen" = true := by
  refine ⟨rfl, strContains_middle _ _ _, strContains_of_infix ?_⟩
  refine ⟨"Unsupported agent type: ".toList ++ typeName.toList ++
    ". Currently supported frameworks: ".toList, [], ?_⟩
  rw [string_toList_append, string_toList_append]
  simp only [List.append_nil, List.append_assoc]
  rfl

/-- Claim C7: `adapt` on an object of the registered chat-agent shape
returns the `AutogenAdapter` wrapping it, and each contract operation on
that adapter performs exactly one call of the identically-named operation
on the wrapped agent — the call log grows by exactly that one entry, with
the arguments passed unchanged — and returns the wrapped agent's result
unchanged. -/
theorem C7_adapter_forwarding (agent : ExternalChatAgent) (hist : List ACall)
    (messages : List ChatMessage) (tok : CancellationToken)
    (state : List (String × PyVal)) :
    adapt (PyAgentObject.chatAgent agent)
      = Except.ok (AutogenAdapter.init agent) ∧
    (AutogenAdapter.init agent).on_messages hist messages tok
      = (agent.on_messages hist messages tok,
         hist ++ [ACall.on_messages messages tok]) ∧
    (AutogenAdapter.init agent).on_messages_stream hist messages tok
      = (agent.on_messages_stream hist messages tok,
         hist ++ [ACall.on_messages_stream messages tok]) ∧
    (AutogenAdapter.init agent).on_reset hist tok
      = hist ++ [ACall.on_reset tok] ∧
    (AutogenAdapter.init agent).save_state hist
      = (agent.save_state hist, hist ++ [ACall.save_state]) ∧
    (AutogenAdapter.init agent).load_state hist state
      = hist ++ [ACall.load_state state] ∧
    (AutogenAdapter.init agent).close hist = hist ++ [ACall.close] := by
  refine ⟨rfl, rfl, ?_, rfl, rfl, rfl, rfl⟩
  unfold AutogenAdapter.on_messages_stream
  rw [reyield_eq]
  rfl

/-- Counterexample to C9 as stated: with no internal agent present, the
raised `AttributeError` reads `"<class> has no internal agent"`, which does
not name the missing member (`"run"` here). -/
theorem C9_counterexample :
    ¬ getattrErrorNamesMember "AutogenAdapter" none "run" := by
  intro h
  have h1 := (h "AutogenAdapter has no internal agent" rfl).1
  exact absurd h1 (by decide)

/-- Claim C9 (amended): when the wrapped internal agent has the requested
member, delegation returns it; when the member is missing on the internal
agent, an `AttributeError` naming both the member and the wrapping class is
raised; when no internal agent is present, the `AttributeError` names the
wrapping class only (`"<class> has no internal agent"`). -/
theorem C9_getattr_delegation (clsName name : String)
    (internal : Option InternalObj) :
    (internal = none →
      BaseMeepoAgent.getattrDelegate clsName internal name
        = GetattrResult.attributeError (clsName ++ " has no internal agent") ∧
      strContains (clsName ++ " has no internal agent") clsName = true) ∧
    (∀ obj v, internal = some obj → obj.attrs.lookup name = some v →
      BaseMeepoAgent.getattrDelegate clsName internal name
        = GetattrResult.found v) ∧
    (∀ obj, internal = some obj → obj.attrs.lookup name = none →
      BaseMeepoAgent.getattrDelegate clsName internal name
        = GetattrResult.attributeError
            (clsName ++ " has no attribute \x27" ++ name ++ "\x27") ∧
      strContains (clsName ++ " has no attribute \x27" ++ name ++ "\x27")
        name = true ∧
      strContains (clsName ++ " has no attribute \x27" ++ name ++ "\x27")
        clsName = true) := by
  refine ⟨?_, ?_, ?_⟩
  · rintro rfl
    exact ⟨rfl, strContains_prefixed _ _⟩
  · rintro obj v rfl hv
    simp [BaseMeepoAgent.getattrDelegate, hv]
  · rintro obj rfl hv
    refine ⟨?_, strContains_middle _ _ _, strContains_of_infix ?_⟩
    · simp [BaseMeepoAgent.getattrDelegate, hv]
    · refine ⟨[], " has no attribute \x27".toList ++ name.toList ++
        "\x27".toList, ?_⟩
      rw [string_toList_append, string_toList_append,
        string_toList_append]
      simp [List.append_assoc]

/-- Witness for C9 at a present member and at a missing member. -/
theorem C9_getattr_delegation_witness :
    BaseMeepoAgent.getattrDelegate "AutogenAdapter"
      (some ⟨[("model", PyVal.str "gpt")]⟩) "model"
      = GetattrResult.found (PyVal.str "gpt") ∧
    BaseMeepoAgent.getattrDelegate "AutogenAdapter"
      (some ⟨[("model", PyVal.str "gpt")]⟩) "run"
      = GetattrResult.attributeError
          ("AutogenAdapter" ++ " has no attribute \x27" ++ "run" ++ "\x27") :=
  ⟨(C9_getattr_delegation "AutogenAdapter" "model"
      (some ⟨[("model", PyVal.str "gpt")]⟩)).2.1 _ _ rfl rfl,
   ((C9_getattr_delegation "AutogenAdapter" "run"
      (some ⟨[("model", PyVal.str "gpt")]⟩)).2.2 _ rfl rfl).1⟩

/-- Claim C10: the synchronous wrapper's `generate_response` builds a fresh
temporary conversation — the agent's system message (when truthy) followed
by the input — returns the placeholder text, and leaves the wrapped
asynchronous agent (in particular its own conversation) completely
unchanged. -/
theorem C10_generate_response_frame (ag : MeepoAgent) (fc : String × Nat)
    (fs fu : Fresh) (message : String ⊕ Message) (tok : CancellationToken)
    (s : String) (hs : ag._async_agent._system_message = some s)
    (hne : s ≠ "") :
    (ag.generate_response fc fs fu message tok).1
      = "This is a placeholder response from AsyncMeepoAgent." ∧
    (ag.generate_response fc fs fu message tok).2 = ag ∧
    (ag.generate_response fc fs fu message
        tok).2._async_agent._conversation
      = ag._async_agent._conversation ∧
    (ag._prepare_conversation fc fs fu message).messages
      = [Message.system fs s none] ++
        [match message with
         | Sum.inl str => Message.user fu (Content.str str) none
         | Sum.inr m => m] := by
  refine ⟨rfl, rfl, rfl, ?_⟩
  unfold MeepoAgent._prepare_conversation
  rw [hs]
  rcases message with str | m <;>
    simp [hne, Conversation.add_user_message, Conversation.add_message,
      Conversation.add_system_message, Conversation.new]

/-- Witness for C10 at a concrete wrapper agent with the system message
`"sys prompt"` and the plain-string input `"hello"`. -/
theorem C10_generate_response_frame_witness :
    sampleSyncAgent._async_agent._system_message = some "sys prompt" ∧
    (sampleSyncAgent.generate_response ("t0", 1) ⟨"s0", 1⟩ ⟨"u0", 2⟩
      (Sum.inl "hello") 0).1
      = "This is a placeholder response from AsyncMeepoAgent." ∧
    (sampleSyncAgent.generate_response ("t0", 1) ⟨"s0", 1⟩ ⟨"u0", 2⟩
      (Sum.inl "hello") 0).2 = sampleSyncAgent :=
  ⟨rfl,
   (C10_generate_response_frame sampleSyncAgent ("t0", 1) ⟨"s0", 1⟩ ⟨"u0", 2⟩
     (Sum.inl "hello") 0 "sys prompt" rfl (by decide)).1,
   (C10_generate_response_frame sampleSyncAgent ("t0", 1) ⟨"s0", 1⟩ ⟨"u0", 2⟩
     (Sum.inl "hello") 0 "sys prompt" rfl (by decide)).2.1⟩
